import Mathlib

/-!
Shallow embedding of the thirdweb wallet-creation / ERC-20 deployment CLI
(`src/thirdweb-client.ts`, `src/types.ts`, `src/index.ts`, the ecosystem
variant entry point, and `src/check-transaction.ts`).

HTTP calls are modelled by passing the response (or the thrown error) as an
explicit argument; JavaScript `undefined`-able fields become `Option`;
JavaScript truthiness tests on strings / numbers are modelled explicitly.
-/

set_option autoImplicit false

/-- JS truthiness of a possibly-absent string field: `undefined` and the
empty string are falsy, every other string is truthy. -/
def jsTruthyStr (o : Option String) : Bool :=
  match o with
  | none => false
  | some s => !(s == "")

/-- JS `a || b` for a possibly-absent string with a string default
(e.g. `codeResponse.error || 'Unknown error'`). -/
def jsOrStr (o : Option String) (d : String) : String :=
  match o with
  | none => d
  | some s => if s == "" then d else s

/-- JS `a || b` for a possibly-absent number with a number default
(e.g. `chainId || this.config.chainId || 1`; the number `0` is falsy). -/
def jsOrNat (o : Option Nat) (d : Nat) : Nat :=
  match o with
  | none => d
  | some n => if n == 0 then d else n

/-- `ThirdwebConfig` from `src/types.ts`. -/
structure ThirdwebConfig where
  apiKey : String
  baseUrl : String
  chainId : Option Nat
  ecosystemId : Option String
  ecosystemPartnerId : Option String
  deriving Repr, DecidableEq

/-- `SendLoginCodeResponse` from `src/types.ts`. -/
structure SendLoginCodeResponse where
  success : Bool
  error : Option String
  deriving Repr, DecidableEq

/-- `VerifyLoginCodeResponse` from `src/types.ts`; `walletAddress` is
declared `string` but the client guards against it being absent/empty at
runtime (`if (!verifyResponse.walletAddress)`), so it is modelled as
`Option String`. -/
structure VerifyLoginCodeResponse where
  isNewUser : Bool
  token : String
  type : String
  walletAddress : Option String
  error : Option String
  deriving Repr, DecidableEq

/-- `WalletInfo` from `src/types.ts`. -/
structure WalletInfo where
  address : String
  email : String
  created_at : Option String
  chain_id : Option Nat
  isNewUser : Option Bool
  token : Option String
  ecosystemId : Option String
  ecosystemPartnerId : Option String
  deriving Repr, DecidableEq

/-- `ApiError` from `src/types.ts`: the shape produced by the axios response
interceptor for non-2xx responses. -/
structure ApiError where
  error : String
  message : Option String
  status_code : Option Nat
  deriving Repr, DecidableEq

/-- A value thrown by the client: either a normalized `ApiError` (HTTP-level
failure) or a plain `Error` carrying a message (network failure, or an
explicit `throw new Error(...)` in the client code). -/
inductive JsThrown where
  | api (e : ApiError)
  | err (msg : String)
  deriving Repr, DecidableEq

/-- The observable outcome of one run of
`ThirdwebClient.createWalletWithEmail`: the returned value or thrown error,
whether the caller-supplied OTP callback was awaited, whether
`verifyLoginCode` was called, and the `Authorization` header stored by
`updateAuthHeaders` (if any). -/
structure WalletCreationRun where
  result : Except String WalletInfo
  otpRequested : Bool
  verifyCalled : Bool
  authHeader : Option String
  deriving Repr

/-- `ThirdwebClient.createWalletWithEmail` (`src/thirdweb-client.ts`,
lines 106-152), with the two HTTP responses passed explicitly:
`codeResponse` is what `sendLoginCode` returns, `verify` maps the OTP code
to what `verifyLoginCode` returns, `otpCode` is the value produced by the
caller-supplied `getOtpCode` callback, and `now` is the current ISO
timestamp. The method declares only the `email` and `getOtpCode`
parameters. -/
def createWalletWithEmail (cfg : ThirdwebConfig) (email : String)
    (codeResponse : SendLoginCodeResponse) (otpCode : String)
    (verify : String → VerifyLoginCodeResponse) (now : String) :
    WalletCreationRun :=
  if !codeResponse.success then
    { result := .error ("Failed to send login code: " ++
        jsOrStr codeResponse.error "Unknown error"),
      otpRequested := false, verifyCalled := false, authHeader := none }
  else
    match (verify otpCode).walletAddress with
    | none =>
      { result := .error ("Failed to verify login code: " ++
          jsOrStr (verify otpCode).error "No wallet address returned"),
        otpRequested := true, verifyCalled := true, authHeader := none }
    | some addr =>
      if addr == "" then
        { result := .error ("Failed to verify login code: " ++
            jsOrStr (verify otpCode).error "No wallet address returned"),
          otpRequested := true, verifyCalled := true, authHeader := none }
      else
        { result := .ok
            { address := addr,
              email := email,
              created_at := some now,
              chain_id := cfg.chainId,
              isNewUser := some (verify otpCode).isNewUser,
              token := some (verify otpCode).token,
              ecosystemId := none,
              ecosystemPartnerId := none },
          otpRequested := true, verifyCalled := true,
          authHeader := some ("Bearer " ++ (verify otpCode).token) }

/-- The ecosystem-variant entry point (`src/index.ts` of the ecosystem
flavor) calls `client.createWalletWithEmail(email, getOtpFromUser,
ecosystemId, ecosystemPartnerId)` with four arguments.  The method declares
only two parameters, so under JavaScript call semantics the extra arguments
are dropped; this definition models that call site. -/
def createWalletWithEmailEcosystemCall (cfg : ThirdwebConfig) (email : String)
    (codeResponse : SendLoginCodeResponse) (otpCode : String)
    (verify : String → VerifyLoginCodeResponse) (now : String)
    (_ecosystemId _ecosystemPartnerId : Option String) : WalletCreationRun :=
  createWalletWithEmail cfg email codeResponse otpCode verify now

/-- `TokenMetadata` from `src/types.ts`. -/
structure TokenMetadata where
  name : String
  symbol : String
  description : String
  decimals : Option Int
  initialSupply : Option String
  deriving Repr, DecidableEq

/-- The `constructorParams` object built by `deployERC20Contract`
(`src/thirdweb-client.ts`, lines 168-177): always `name`, `symbol`,
`primarySaleRecipient`; the `initialSupply` key is added only when
`tokenMetadata.initialSupply && tokenMetadata.initialSupply !== '0'`
(JS truthiness: absent and empty string are falsy). -/
structure ConstructorParams where
  name : String
  symbol : String
  primarySaleRecipient : String
  initialSupply : Option String
  deriving Repr, DecidableEq

/-- `DeployContractRequest` from `src/types.ts` (the `from` field is a Lean
keyword and is called `fromAddr` here; `salt` is never set by the client
and is omitted). -/
structure DeployContractRequest where
  chainId : Nat
  contractUrl : String
  fromAddr : String
  constructorParams : ConstructorParams
  deriving Repr, DecidableEq

/-- The `result` object of `DeployContractResponse` from `src/types.ts`. -/
structure DeployResultData where
  address : String
  chainId : Nat
  transactionId : Option String
  deriving Repr, DecidableEq

/-- `DeployContractResponse` from `src/types.ts`; `result` is declared
required but the client guards `if (!response.data.result)`, so it is
modelled as `Option`. -/
structure DeployContractResponse where
  result : Option DeployResultData
  error : Option String
  deriving Repr, DecidableEq

/-- `ContractInfo` from `src/types.ts`. -/
structure ContractInfo where
  contractAddress : String
  transactionId : Option String
  chainId : Nat
  deployer : String
  tokenName : String
  tokenSymbol : String
  tokenDescription : String
  deployed_at : String
  deriving Repr, DecidableEq

/-- The effective chain id used by `deployERC20Contract`:
`chainId || this.config.chainId || 1`. -/
def deployChainId (cfg : ThirdwebConfig) (chainId : Option Nat) : Nat :=
  jsOrNat chainId (jsOrNat cfg.chainId 1)

/-- The constructor parameters assembled by `deployERC20Contract`
(`src/thirdweb-client.ts`, lines 168-177). -/
def mkConstructorParams (walletAddress : String)
    (tokenMetadata : TokenMetadata) : ConstructorParams :=
  { name := tokenMetadata.name,
    symbol := tokenMetadata.symbol,
    primarySaleRecipient := walletAddress,
    initialSupply :=
      match tokenMetadata.initialSupply with
      | none => none
      | some s => if !(s == "") && !(s == "0") then some s else none }

/-- The `POST /v1/contracts` payload assembled by `deployERC20Contract`
(`src/thirdweb-client.ts`, lines 180-185). -/
def deployPayload (cfg : ThirdwebConfig) (walletAddress : String)
    (tokenMetadata : TokenMetadata) (chainId : Option Nat) :
    DeployContractRequest :=
  { chainId := deployChainId cfg chainId,
    contractUrl := "https://thirdweb.com/thirdweb.eth/TokenERC20",
    fromAddr := walletAddress,
    constructorParams := mkConstructorParams walletAddress tokenMetadata }

/-- `ThirdwebClient.deployERC20Contract` (`src/thirdweb-client.ts`,
lines 157-213) with the HTTP outcome of the POST passed explicitly: a
thrown error is re-thrown (the catch block logs and re-throws), a response
without `result` becomes a thrown `Error`, and otherwise a `ContractInfo`
stamped with `now` is returned. -/
def deployERC20Contract (cfg : ThirdwebConfig) (walletAddress : String)
    (tokenMetadata : TokenMetadata) (chainId : Option Nat) (now : String)
    (httpOutcome : Except JsThrown DeployContractResponse) :
    Except JsThrown ContractInfo :=
  match httpOutcome with
  | .error e => .error e
  | .ok data =>
    match data.result with
    | none => .error (.err ("Failed to deploy contract: " ++
        jsOrStr data.error "Unknown error"))
    | some r => .ok
        { contractAddress := r.address,
          transactionId := r.transactionId,
          chainId := deployChainId cfg chainId,
          deployer := walletAddress,
          tokenName := tokenMetadata.name,
          tokenSymbol := tokenMetadata.symbol,
          tokenDescription := tokenMetadata.description,
          deployed_at := now }

/-- The body shape of a GET lookup response: `response.data.result`,
possibly absent. -/
structure LookupResponse (α : Type) where
  result : Option α
  deriving Repr, DecidableEq

/-- `ThirdwebClient.getWalletInfo` (`src/thirdweb-client.ts`,
lines 218-226): returns `response.data.result` on success and `null` on any
thrown error. -/
def getWalletInfo
    (httpOutcome : Except JsThrown (LookupResponse WalletInfo)) :
    Option WalletInfo :=
  match httpOutcome with
  | .error _ => none
  | .ok r => r.result

/-- `ThirdwebClient.getContractInfo` (`src/thirdweb-client.ts`,
lines 231-240): same shape as `getWalletInfo` but with an untyped (`any`)
result payload, hence the type parameter. -/
def getContractInfo {α : Type}
    (httpOutcome : Except JsThrown (LookupResponse α)) : Option α :=
  match httpOutcome with
  | .error _ => none
  | .ok r => r.result

/-- Value of a hex digit character (used by JS `parseInt` radix-16 parsing). -/
def hexVal (c : Char) : Option Nat :=
  if '0' ≤ c ∧ c ≤ '9' then some (c.toNat - '0'.toNat)
  else if 'a' ≤ c ∧ c ≤ 'f' then some (c.toNat - 'a'.toNat + 10)
  else if 'A' ≤ c ∧ c ≤ 'F' then some (c.toNat - 'A'.toNat + 10)
  else none

/-- Maximal-munch digit parsing in the given base: consumes leading digits,
returns `none` when no digit was consumed (JS `NaN`). -/
def parseDigits (base : Nat) : List Char → Nat → Bool → Option Nat
  | [], acc, seen => if seen then some acc else none
  | c :: rest, acc, seen =>
    match hexVal c with
    | some v =>
      if v < base then parseDigits base rest (acc * base + v) true
      else if seen then some acc else none
    | none => if seen then some acc else none

/-- JS `parseInt(s)` with no radix argument, on an already-trimmed string
(the CLI trims every answer in `askQuestion`): optional sign, optional
`0x`/`0X` hex prefix, maximal run of digits, `NaN` (here `none`) when no
digit follows. -/
def parseIntJs (s : String) : Option Int :=
  let cs := s.toList
  let signed : Bool × List Char :=
    match cs with
    | '-' :: rest => (true, rest)
    | '+' :: rest => (false, rest)
    | _ => (false, cs)
  let based : Nat × List Char :=
    match signed.2 with
    | '0' :: 'x' :: rest => (16, rest)
    | '0' :: 'X' :: rest => (16, rest)
    | _ => (10, signed.2)
  match parseDigits based.1 based.2 0 false with
  | none => none
  | some n => some (if signed.1 then -(n : Int) else (n : Int))

/-- JS `String.prototype.toUpperCase()` on ASCII input, as applied to the
token symbol (structural recursion over the characters, so that concrete
runs reduce in the kernel). -/
def toUpperCase (s : String) : String :=
  ⟨s.data.map Char.toUpper⟩

/-- The five trimmed answers a user gives during one pass of the
`getTokenMetadata` prompt sequence (`src/index.ts`). -/
structure TokenPromptInputs where
  name : String
  symbol : String
  description : String
  decimalsInput : String
  initialSupplyInput : String
  deriving Repr, DecidableEq

/-- Outcome of one pass of `getTokenMetadata`: `restart` when a required
field was empty (the function calls itself again from the top), otherwise
the metadata it returns together with whether the
"Invalid decimals. Using default value of 18." warning was printed. -/
inductive TokenPromptOutcome where
  | restart
  | done (metadata : TokenMetadata) (warnedInvalidDecimals : Bool)
  deriving Repr, DecidableEq

/-- One pass of `getTokenMetadata` (`src/index.ts`, lines 41-80 of the
non-ecosystem entry point; the ecosystem variant is identical):
`decimals = decimalsInput ? parseInt(decimalsInput) : 18`; the warning is
printed when `isNaN(decimals) || decimals < 0 || decimals > 18`; the
returned metadata uses `isNaN(decimals) ? 18 : decimals` and upper-cases
the symbol. -/
def getTokenMetadata (inp : TokenPromptInputs) : TokenPromptOutcome :=
  if inp.name == "" then .restart
  else if inp.symbol == "" then .restart
  else if inp.description == "" then .restart
  else
    let decimals : Option Int :=
      if !(inp.decimalsInput == "") then parseIntJs inp.decimalsInput
      else some 18
    let warned : Bool :=
      match decimals with
      | none => true
      | some d => decide (d < 0) || decide (18 < d)
    let initialSupply : String :=
      if !(inp.initialSupplyInput == "") then inp.initialSupplyInput else "0"
    .done
      { name := inp.name,
        symbol := toUpperCase inp.symbol,
        description := inp.description,
        decimals := some (match decimals with | none => 18 | some d => d),
        initialSupply := some initialSupply }
      warned

/-- The token field written by `saveWalletInfo` / `saveCompleteInfo`
(`src/index.ts`): `walletInfo.token ?
walletInfo.token.substring(0, 20) + '...' : undefined`. -/
def truncateToken (token : Option String) : Option String :=
  match token with
  | none => none
  | some t => if t == "" then none else some (t.take 20 ++ "...")

/-- The wallet object serialized by `saveWalletInfo` (`src/index.ts`,
lines 207-222): a copy of the `WalletInfo` with the token replaced by its
truncation. -/
def saveWalletInfoRecord (walletInfo : WalletInfo) : WalletInfo :=
  { walletInfo with token := truncateToken walletInfo.token }

/-- The object serialized by `saveCompleteInfo` (`src/index.ts`,
lines 227-244): the same truncated-token wallet copy plus the contract
info, which carries no token. -/
structure CompleteInfoRecord where
  wallet : WalletInfo
  contract : ContractInfo
  deriving Repr, DecidableEq

/-- The value `completeInfo` built by `saveCompleteInfo` before it is
written to disk. -/
def saveCompleteInfoRecord (walletInfo : WalletInfo)
    (contractInfo : ContractInfo) : CompleteInfoRecord :=
  { wallet := { walletInfo with token := truncateToken walletInfo.token },
    contract := contractInfo }

/-- Maximum number of polling attempts in watch mode
(`src/check-transaction.ts`: `const maxAttempts = 120`). -/
def maxAttempts : Nat := 120

/-- Delay between polls in watch mode, in milliseconds
(`src/check-transaction.ts`: `setTimeout(resolve, 5000)`). -/
def watchDelayMs : Nat := 5000

/-- The early-exit test of the watch loop on a successful poll:
`txData.status && txData.status !== 'pending'` (a missing or empty status
is falsy and keeps the loop going). -/
def breakStatus (status : Option String) : Bool :=
  match status with
  | none => false
  | some s => !(s == "") && !(s == "pending")

/-- Whether the catch branch of the watch loop logs the
"Transaction not found" hint: the thrown value has a `status_code` field
equal to 404. -/
def is404 (e : JsThrown) : Bool :=
  match e with
  | .api a => a.status_code == some 404
  | .err _ => false

/-- Observable summary of a watch-mode run (`src/check-transaction.ts`,
lines 223-271): how many polls were performed, total delay slept, how many
times the 404 hint was logged, and whether the loop stopped early on a
non-pending status (as opposed to exhausting the attempt budget). -/
structure WatchResult where
  iterations : Nat
  sleepMs : Nat
  hints404 : Nat
  stoppedEarly : Bool
  deriving Repr, DecidableEq

/-- The watch-mode `while (attempts < maxAttempts)` loop, with `fuel` the
number of remaining permitted iterations (`maxAttempts - attempts`) and
`attempts` the current counter, which also indexes the polls: `poll a`
gives the outcome of `checkTransactionStatus` on the iteration entered
with `attempts = a` (either the extracted `txData.status`, possibly
absent, or the thrown error).  On a non-pending status the loop breaks
without incrementing; otherwise it increments and sleeps 5 s; in the catch
branch it increments and sleeps only if budget remains. -/
def watchGo (poll : Nat → Except JsThrown (Option String)) :
    Nat → Nat → WatchResult
  | 0, _ =>
    { iterations := 0, sleepMs := 0, hints404 := 0, stoppedEarly := false }
  | fuel + 1, attempts =>
    match poll attempts with
    | .ok st =>
      if breakStatus st then
        { iterations := 1, sleepMs := 0, hints404 := 0, stoppedEarly := true }
      else
        let rest := watchGo poll fuel (attempts + 1)
        { iterations := rest.iterations + 1,
          sleepMs := rest.sleepMs + watchDelayMs,
          hints404 := rest.hints404,
          stoppedEarly := rest.stoppedEarly }
    | .error e =>
      let rest := watchGo poll fuel (attempts + 1)
      { iterations := rest.iterations + 1,
        sleepMs := rest.sleepMs + (if fuel == 0 then 0 else watchDelayMs),
        hints404 := rest.hints404 + (if is404 e then 1 else 0),
        stoppedEarly := rest.stoppedEarly }

/-- A full watch-mode run: `attempts` starts at 0 with the full 120-attempt
budget. -/
def watchMode (poll : Nat → Except JsThrown (Option String)) : WatchResult :=
  watchGo poll maxAttempts 0

/-- The well-typed transaction statuses of `TransactionStatusResponse`
(`src/check-transaction.ts`, line 10). -/
inductive TxStatus where
  | pending
  | completed
  | failed
  | cancelled
  deriving Repr, DecidableEq

/-- The wire string of a transaction status. -/
def TxStatus.toStr : TxStatus → String
  | .pending => "pending"
  | .completed => "completed"
  | .failed => "failed"
  | .cancelled => "cancelled"

/-- A poll oracle for a sequence of successful, well-typed
transaction-status responses (no HTTP errors, status always present). -/
def statusOracle (s : Nat → TxStatus) :
    Nat → Except JsThrown (Option String) :=
  fun i => .ok (some (s i).toStr)

/-- Observable summary of single-check mode (`src/check-transaction.ts`,
lines 273-302): on a successful response the status is displayed and the
process ends normally; on a thrown error the `main` catch block prints it,
prints the 404 remediation tip when `status_code === 404`, and calls
`process.exit(1)`. -/
structure SingleCheckOutcome where
  exitCode : Nat
  printed404Hint : Bool
  deriving Repr, DecidableEq

/-- Single-check mode as a function of the one poll outcome. -/
def singleCheck (resp : Except JsThrown (Option String)) :
    SingleCheckOutcome :=
  match resp with
  | .ok _ => { exitCode := 0, printed404Hint := false }
  | .error e => { exitCode := 1, printed404Hint := is404 e }

/-! ## Concrete fixtures used by witness theorems -/

/-- A concrete client configuration. -/
def cfgW : ThirdwebConfig :=
  { apiKey := "k", baseUrl := "https://api.thirdweb-dev.com",
    chainId := some 1, ecosystemId := none, ecosystemPartnerId := none }

/-- A concrete successful send-code response. -/
def sendOkW : SendLoginCodeResponse := { success := true, error := none }

/-- A concrete verify oracle that returns a wallet address and token. -/
def verifyFnOkW : String → VerifyLoginCodeResponse :=
  fun _ =>
    { isNewUser := true, token := "tok-1234567890-abcdefghij",
      type := "email", walletAddress := some "0xAbCd", error := none }

/-- A concrete verify oracle whose response has a token but no wallet
address. -/
def verifyFnNoAddrW : String → VerifyLoginCodeResponse :=
  fun _ =>
    { isNewUser := false, token := "tok-present-anyway", type := "email",
      walletAddress := none, error := none }

/-- The `WalletInfo` produced by a successful run with `cfgW`, `sendOkW`
and `verifyFnOkW`. -/
def walletOkW : WalletInfo :=
  { address := "0xAbCd", email := "a@b.c", created_at := some "now",
    chain_id := some 1, isNewUser := some true,
    token := some "tok-1234567890-abcdefghij",
    ecosystemId := none, ecosystemPartnerId := none }

/-! ## Claims -/

/-- Claim C1 (code bug exhibit): on the interactive token-configuration
run whose decimals answer is "25" — numeric but outside [0, 18] — the code
prints the "Invalid decimals. Using default value of 18." warning (the
`true` flag below) yet returns a `TokenMetadata` whose `decimals` is 25,
not the default 18, contradicting both the claim and the code's own
message. -/
theorem getTokenMetadata_decimals_25_kept :
    getTokenMetadata
      { name := "Tok", symbol := "tok", description := "d",
        decimalsInput := "25", initialSupplyInput := "" } =
      .done
        { name := "Tok", symbol := "TOK", description := "d",
          decimals := some 25, initialSupply := some "0" } true
    ∧ (some 25 : Option Int) ≠ some 18 := by
  exact ⟨by decide, by decide⟩

/-- Claim C2 (counterexample): with `initialSupply` equal to the empty
string — a value that is neither absent nor the string "0" — the
constructor parameters still omit the `initialSupply` key, because the
JS truthiness test `tokenMetadata.initialSupply && ...` treats the empty
string as falsy. -/
theorem deploy_initialSupply_empty_string_omitted :
    (mkConstructorParams "0xW"
      { name := "T", symbol := "T", description := "d",
        decimals := some 18, initialSupply := some "" }).initialSupply = none
    ∧ (some "" : Option String) ≠ none
    ∧ (some "" : Option String) ≠ some "0" := by
  exact ⟨rfl, by decide, by decide⟩

/-- Claim C2 (amended): the deploy request's constructor parameters carry
`initialSupply = v` exactly when the token metadata supplies the value `v`
and `v` is neither the empty string nor the string "0"; equivalently the
key is omitted when the value is absent, empty, or exactly "0". -/
theorem deploy_initialSupply_included_iff (walletAddress : String)
    (m : TokenMetadata) (v : String) :
    (mkConstructorParams walletAddress m).initialSupply = some v ↔
      m.initialSupply = some v ∧ v ≠ "" ∧ v ≠ "0" := by
  unfold mkConstructorParams
  cases h : m.initialSupply with
  | none => simp
  | some s =>
    by_cases h1 : s = ""
    · subst h1
      simp
      intro he hne
      exact absurd he.symm hne
    · by_cases h2 : s = "0"
      · subst h2
        simp [h1]
        intro he _
        exact he.symm
      · simp [h1, h2]
        rintro rfl
        exact ⟨h1, h2⟩

/-- Claim C3: when the send-code response has `success: false`,
`createWalletWithEmail` fails with an explanatory error and neither the
OTP-retrieval callback nor `verifyLoginCode` is invoked. -/
theorem createWalletWithEmail_sendFail (cfg : ThirdwebConfig)
    (email : String) (codeResponse : SendLoginCodeResponse)
    (otpCode : String) (verify : String → VerifyLoginCodeResponse)
    (now : String) (h : codeResponse.success = false) :
    (createWalletWithEmail cfg email codeResponse otpCode verify now).result
      = .error ("Failed to send login code: " ++
          jsOrStr codeResponse.error "Unknown error")
    ∧ (createWalletWithEmail cfg email codeResponse otpCode verify
        now).otpRequested = false
    ∧ (createWalletWithEmail cfg email codeResponse otpCode verify
        now).verifyCalled = false := by
  simp [createWalletWithEmail, h]

/-- Witness for C3 at a concrete failing send-code response. -/
theorem createWalletWithEmail_sendFail_witness :
    (createWalletWithEmail cfgW "a@b.c"
        { success := false, error := some "boom" } "1234" verifyFnOkW
        "now").result
      = .error ("Failed to send login code: " ++
          jsOrStr (some "boom") "Unknown error")
    ∧ (createWalletWithEmail cfgW "a@b.c"
        { success := false, error := some "boom" } "1234" verifyFnOkW
        "now").otpRequested = false
    ∧ (createWalletWithEmail cfgW "a@b.c"
        { success := false, error := some "boom" } "1234" verifyFnOkW
        "now").verifyCalled = false :=
  createWalletWithEmail_sendFail cfgW "a@b.c"
    { success := false, error := some "boom" } "1234" verifyFnOkW "now" rfl

/-- Claim C4: when the verify response has no (or an empty) wallet
address, `createWalletWithEmail` fails — even though the response carries
a token — and no `Authorization` header is stored; the header is stored
only on the success path, together with a `WalletInfo` stamped with the
current time and carrying the bearer token. -/
theorem createWalletWithEmail_verify_guard (cfg : ThirdwebConfig)
    (email : String) (codeResponse : SendLoginCodeResponse)
    (otpCode : String) (verify : String → VerifyLoginCodeResponse)
    (now : String) :
    (jsTruthyStr (verify otpCode).walletAddress = false →
      (∃ msg, (createWalletWithEmail cfg email codeResponse otpCode verify
          now).result = .error msg)
      ∧ (createWalletWithEmail cfg email codeResponse otpCode verify
          now).authHeader = none)
    ∧ (∀ w, (createWalletWithEmail cfg email codeResponse otpCode verify
          now).result = .ok w →
        (createWalletWithEmail cfg email codeResponse otpCode verify
          now).authHeader = some ("Bearer " ++ (verify otpCode).token)
        ∧ w.created_at = some now
        ∧ w.token = some (verify otpCode).token) := by
  constructor
  · intro hfalsy
    unfold createWalletWithEmail
    cases hcs : codeResponse.success with
    | false => exact ⟨⟨_, rfl⟩, rfl⟩
    | true =>
      cases hwa : (verify otpCode).walletAddress with
      | none => exact ⟨⟨_, rfl⟩, rfl⟩
      | some addr =>
        rw [hwa] at hfalsy
        simp [jsTruthyStr] at hfalsy
        subst hfalsy
        exact ⟨⟨_, rfl⟩, rfl⟩
  · intro w hw
    unfold createWalletWithEmail at hw ⊢
    cases hcs : codeResponse.success with
    | false =>
      simp [hcs] at hw
    | true =>
      cases hwa : (verify otpCode).walletAddress with
      | none =>
        simp [hcs, hwa] at hw
      | some addr =>
        by_cases ha : addr = ""
        · subst ha
          simp [hcs, hwa] at hw
        · simp [hcs, hwa, ha] at hw ⊢
          rw [← hw]
          exact ⟨rfl, rfl⟩

/-- Witness for C4 at a concrete verify response that carries a token but
no wallet address. -/
theorem createWalletWithEmail_verify_guard_witness :
    (createWalletWithEmail cfgW "a@b.c" sendOkW "1234" verifyFnNoAddrW
      "now").authHeader = none :=
  ((createWalletWithEmail_verify_guard cfgW "a@b.c" sendOkW "1234"
      verifyFnNoAddrW "now").1 (by rfl)).2

/-- A run of the watch loop whose first `fuel` polls all return status
"pending" performs exactly `fuel` iterations, sleeps after each one, never
logs the 404 hint, and does not stop early. -/
theorem watchGo_all_pending (poll : Nat → Except JsThrown (Option String)) :
    ∀ (fuel a : Nat),
    (∀ j, j < fuel → poll (a + j) = .ok (some "pending")) →
    watchGo poll fuel a =
      { iterations := fuel, sleepMs := watchDelayMs * fuel,
        hints404 := 0, stoppedEarly := false } := by
  intro fuel
  induction fuel with
  | zero =>
    intro a _
    simp [watchGo]
  | succ f ih =>
    intro a h
    have h0 : poll a = .ok (some "pending") := by
      have := h 0 (Nat.succ_pos f)
      simpa using this
    have hb : breakStatus (some "pending") = false := rfl
    have hrest : watchGo poll f (a + 1) =
        { iterations := f, sleepMs := watchDelayMs * f,
          hints404 := 0, stoppedEarly := false } := by
      apply ih
      intro j hj
      have := h (j + 1) (Nat.succ_lt_succ hj)
      rwa [show a + (j + 1) = a + 1 + j by omega] at this
    simp [watchGo, h0, hb, hrest, Nat.mul_succ]

/-- A run of the watch loop that sees "pending" for the first `k` polls
and then a breaking (present, non-pending) status performs exactly `k + 1`
iterations and stops early, having slept `k` times. -/
theorem watchGo_break_at (poll : Nat → Except JsThrown (Option String)) :
    ∀ (k fuel a : Nat), k < fuel →
    (∀ j, j < k → poll (a + j) = .ok (some "pending")) →
    (∃ st, poll (a + k) = .ok st ∧ breakStatus st = true) →
    watchGo poll fuel a =
      { iterations := k + 1, sleepMs := watchDelayMs * k,
        hints404 := 0, stoppedEarly := true } := by
  intro k
  induction k with
  | zero =>
    intro fuel a hk _ hbr
    obtain ⟨st, hst, hb⟩ := hbr
    obtain ⟨f, rfl⟩ : ∃ f, fuel = f + 1 := ⟨fuel - 1, by omega⟩
    have hst' : poll a = .ok st := by simpa using hst
    simp [watchGo, hst', hb]
  | succ j ih =>
    intro fuel a hk hpend hbr
    obtain ⟨f, rfl⟩ : ∃ f, fuel = f + 1 := ⟨fuel - 1, by omega⟩
    have h0 : poll a = .ok (some "pending") := by
      have := hpend 0 (Nat.succ_pos j)
      simpa using this
    have hb : breakStatus (some "pending") = false := rfl
    have hrest : watchGo poll f (a + 1) =
        { iterations := j + 1, sleepMs := watchDelayMs * j,
          hints404 := 0, stoppedEarly := true } := by
      apply ih f (a + 1) (by omega)
      · intro i hi
        have := hpend (i + 1) (Nat.succ_lt_succ hi)
        rwa [show a + (i + 1) = a + 1 + i by omega] at this
      · obtain ⟨st, hst, hbst⟩ := hbr
        refine ⟨st, ?_, hbst⟩
        rwa [show a + (j + 1) = a + 1 + j by omega] at hst
    simp [watchGo, h0, hb, hrest, Nat.mul_succ]

/-- Claim C5: over any sequence of well-typed transaction-status
responses whose first non-"pending" status appears at iteration `N`
(1-based), watch mode performs exactly `min N 120` polling iterations; it
stops early exactly when `N` is within the 120-attempt budget (otherwise
it exits by exhausting the budget), and consecutive iterations are
separated by the fixed 5-second delay (one 5000 ms sleep per non-final
pending iteration). -/
theorem watch_mode_min_iterations (s : Nat → TxStatus) (N : Nat)
    (hN : 0 < N) (hbr : s (N - 1) ≠ .pending)
    (hpend : ∀ j, j < N - 1 → s j = .pending) :
    (watchMode (statusOracle s)).iterations = min N maxAttempts
    ∧ ((watchMode (statusOracle s)).stoppedEarly = true ↔ N ≤ maxAttempts)
    ∧ (watchMode (statusOracle s)).sleepMs =
        watchDelayMs *
          (min N maxAttempts - (if N ≤ maxAttempts then 1 else 0)) := by
  have h120 : maxAttempts = 120 := rfl
  by_cases hle : N ≤ maxAttempts
  · have hmin : min N maxAttempts = N := Nat.min_eq_left hle
    have hrun := watchGo_break_at (statusOracle s) (N - 1) maxAttempts 0
      (by omega)
      (by
        intro j hj
        have hsj := hpend j (by omega)
        simp [statusOracle, hsj, TxStatus.toStr])
      (by
        refine ⟨some (s (0 + (N - 1))).toStr, rfl, ?_⟩
        rw [Nat.zero_add]
        cases h : s (N - 1) with
        | pending => exact absurd h hbr
        | completed => decide
        | failed => decide
        | cancelled => decide)
    unfold watchMode
    rw [hrun]
    refine ⟨?_, ?_, ?_⟩
    · show N - 1 + 1 = min N maxAttempts
      rw [hmin]
      omega
    · simp [hle]
    · show watchDelayMs * (N - 1) = _
      rw [hmin, if_pos hle]
  · have hmin : min N maxAttempts = maxAttempts := Nat.min_eq_right (by omega)
    have hrun := watchGo_all_pending (statusOracle s) maxAttempts 0
      (by
        intro j hj
        have hsj := hpend j (by omega)
        simp [statusOracle, hsj, TxStatus.toStr])
    unfold watchMode
    rw [hrun]
    refine ⟨by rw [hmin], by simp [hle], ?_⟩
    show watchDelayMs * maxAttempts = _
    rw [hmin, if_neg hle, Nat.sub_zero]

/-- A concrete status sequence: pending, pending, then completed. -/
def watchSW : Nat → TxStatus :=
  fun i => if i == 2 then .completed else .pending

/-- Witness for C5: with the first non-pending status at iteration 3, the
watch loop runs exactly 3 iterations, stops early, and sleeps twice. -/
theorem watch_mode_min_iterations_witness :
    (watchMode (statusOracle watchSW)).iterations = min 3 maxAttempts
    ∧ ((watchMode (statusOracle watchSW)).stoppedEarly = true ↔
        3 ≤ maxAttempts)
    ∧ (watchMode (statusOracle watchSW)).sleepMs =
        watchDelayMs *
          (min 3 maxAttempts - (if 3 ≤ maxAttempts then 1 else 0)) :=
  watch_mode_min_iterations watchSW 3 (by decide) (by decide) (by decide)

/-- Claim C6: a 404 `ApiError` thrown during a watch-mode iteration makes
the loop log the not-found hint and keep polling, consuming one attempt
(the remaining run is exactly the run with one less unit of budget,
starting at the next attempt index, plus this one iteration and hint; the
early-stop flag is unchanged); in single-check mode the same 404 is
terminal: exit code 1 with the remediation hint printed. -/
theorem watch_404_retries_single_404_fatal
    (poll : Nat → Except JsThrown (Option String)) (fuel a : Nat)
    (e : ApiError) (h404 : e.status_code = some 404)
    (hp : poll a = .error (.api e)) :
    (watchGo poll (fuel + 1) a).iterations
      = (watchGo poll fuel (a + 1)).iterations + 1
    ∧ (watchGo poll (fuel + 1) a).hints404
      = (watchGo poll fuel (a + 1)).hints404 + 1
    ∧ (watchGo poll (fuel + 1) a).stoppedEarly
      = (watchGo poll fuel (a + 1)).stoppedEarly
    ∧ singleCheck (.error (.api e)) =
        { exitCode := 1, printed404Hint := true } := by
  have hi : is404 (.api e) = true := by simp [is404, h404]
  simp [watchGo, hp, hi, singleCheck]

/-- A concrete 404 error as normalized by the axios interceptor. -/
def apiE404W : ApiError :=
  { error := "Not Found", message := some "Transaction not found",
    status_code := some 404 }

/-- A poll oracle that always fails with the 404 error. -/
def pollW404 : Nat → Except JsThrown (Option String) :=
  fun _ => .error (.api apiE404W)

/-- Witness for C6 at the concrete 404 error with one unit of budget. -/
theorem watch_404_retries_single_404_fatal_witness :
    (watchGo pollW404 (0 + 1) 0).iterations
      = (watchGo pollW404 0 (0 + 1)).iterations + 1
    ∧ (watchGo pollW404 (0 + 1) 0).hints404
      = (watchGo pollW404 0 (0 + 1)).hints404 + 1
    ∧ (watchGo pollW404 (0 + 1) 0).stoppedEarly
      = (watchGo pollW404 0 (0 + 1)).stoppedEarly
    ∧ singleCheck (.error (.api apiE404W)) =
        { exitCode := 1, printed404Hint := true } :=
  watch_404_retries_single_404_fatal pollW404 0 0 apiE404W rfl rfl

/-- Claim C7: whenever the object serialized by `saveWalletInfo` or
`saveCompleteInfo` carries a token string, that string is exactly the
first at-most-20 characters of the in-memory bearer token followed by the
"..." truncation marker — never the untruncated remainder of the token. -/
theorem saved_token_truncated (walletInfo : WalletInfo)
    (contractInfo : ContractInfo) (saved : String)
    (h : (saveWalletInfoRecord walletInfo).token = some saved ∨
         (saveCompleteInfoRecord walletInfo contractInfo).wallet.token
           = some saved) :
    ∃ t, walletInfo.token = some t ∧ saved = t.take 20 ++ "..."
      ∧ (t.take 20).data.length ≤ 20 := by
  have htr : truncateToken walletInfo.token = some saved := by
    cases h with
    | inl h => exact h
    | inr h => exact h
  cases ht : walletInfo.token with
  | none =>
    rw [ht] at htr
    cases htr
  | some t =>
    rw [ht] at htr
    by_cases he : t = ""
    · subst he
      simp [truncateToken] at htr
    · have hform : truncateToken (some t) = some (t.take 20 ++ "...") := by
        simp [truncateToken, he]
      rw [hform] at htr
      refine ⟨t, rfl, (Option.some.inj htr).symm, ?_⟩
      rw [String.data_take t 20]
      exact List.length_take_le 20 t.data

/-- A concrete wallet whose bearer token is 30 characters long. -/
def walletLongTokenW : WalletInfo :=
  { address := "0x123456", email := "a@b.c", created_at := some "now",
    chain_id := some 1, isNewUser := some false,
    token := some "secret-bearer-token-1234567890",
    ecosystemId := none, ecosystemPartnerId := none }

/-- A concrete deployed-contract record. -/
def contractInfoW : ContractInfo :=
  { contractAddress := "0xCafe", transactionId := some "tx-1", chainId := 1,
    deployer := "0x123456", tokenName := "Tok", tokenSymbol := "TOK",
    tokenDescription := "a token", deployed_at := "now" }

set_option maxRecDepth 4000 in
/-- Witness for C7: the 30-character token is saved as its first 20
characters plus the marker. -/
theorem saved_token_truncated_witness :
    ∃ t, walletLongTokenW.token = some t
      ∧ "secret-bearer-token-..." = t.take 20 ++ "..."
      ∧ (t.take 20).data.length ≤ 20 :=
  saved_token_truncated walletLongTokenW contractInfoW
    "secret-bearer-token-..." (Or.inl (by decide))

/-- Claim C8: when the underlying HTTP request throws (any normalized
`ApiError` or network error), `getWalletInfo` and `getContractInfo`
swallow the error and return null, whereas the write-path
`deployERC20Contract` re-throws the same error. -/
theorem read_lookups_swallow_errors (e : JsThrown) (cfg : ThirdwebConfig)
    (walletAddress : String) (m : TokenMetadata) (chainId : Option Nat)
    (now : String) :
    getWalletInfo (.error e) = none
    ∧ getContractInfo (α := String) (.error e) = none
    ∧ deployERC20Contract cfg walletAddress m chainId now (.error e)
        = .error e :=
  ⟨rfl, rfl, rfl⟩

/-- Claim C9: the ecosystem-variant call site's extra third and fourth
arguments do not change the run at all, and every successful
`createWalletWithEmail` result has `ecosystemId` and `ecosystemPartnerId`
undefined — so the entry point's `if (walletInfo.ecosystemId)` display
branches (JS truthiness) are unreachable. -/
theorem createWalletWithEmail_no_ecosystem_fields (cfg : ThirdwebConfig)
    (email : String) (codeResponse : SendLoginCodeResponse)
    (otpCode : String) (verify : String → VerifyLoginCodeResponse)
    (now : String) (eid epid : Option String) :
    createWalletWithEmailEcosystemCall cfg email codeResponse otpCode
        verify now eid epid
      = createWalletWithEmail cfg email codeResponse otpCode verify now
    ∧ ∀ w, (createWalletWithEmail cfg email codeResponse otpCode verify
          now).result = .ok w →
        w.ecosystemId = none ∧ w.ecosystemPartnerId = none
        ∧ jsTruthyStr w.ecosystemId = false
        ∧ jsTruthyStr w.ecosystemPartnerId = false := by
  refine ⟨rfl, ?_⟩
  intro w hw
  unfold createWalletWithEmail at hw
  cases hcs : codeResponse.success with
  | false => simp [hcs] at hw
  | true =>
    cases hwa : (verify otpCode).walletAddress with
    | none => simp [hcs, hwa] at hw
    | some addr =>
      by_cases ha : addr = ""
      · subst ha
        simp [hcs, hwa] at hw
      · simp [hcs, hwa, ha] at hw
        rw [← hw]
        exact ⟨rfl, rfl, rfl, rfl⟩

/-- Witness for C9: a concrete successful run (called with ecosystem
arguments) returns a wallet with both ecosystem fields undefined. -/
theorem createWalletWithEmail_no_ecosystem_fields_witness :
    (createWalletWithEmail cfgW "a@b.c" sendOkW "1234" verifyFnOkW
        "now").result = Except.ok walletOkW
    ∧ walletOkW.ecosystemId = none
    ∧ walletOkW.ecosystemPartnerId = none :=
  ⟨rfl,
   ((createWalletWithEmail_no_ecosystem_fields cfgW "a@b.c" sendOkW "1234"
       verifyFnOkW "now" (some "eco") (some "partner")).2 walletOkW
       rfl).1,
   ((createWalletWithEmail_no_ecosystem_fields cfgW "a@b.c" sendOkW "1234"
       verifyFnOkW "now" (some "eco") (some "partner")).2 walletOkW
       rfl).2.1⟩

/-- Claim C10: two token metadata values that agree on name, symbol and
initial supply — i.e. differ only in `decimals` and/or `description` —
produce identical `POST /v1/contracts` payloads; the description surfaces
only in the locally constructed `ContractInfo`. -/
theorem deploy_request_ignores_decimals_description
    (cfg : ThirdwebConfig) (walletAddress : String) (chainId : Option Nat)
    (m1 m2 : TokenMetadata)
    (hname : m1.name = m2.name) (hsym : m1.symbol = m2.symbol)
    (hsupply : m1.initialSupply = m2.initialSupply) :
    deployPayload cfg walletAddress m1 chainId
      = deployPayload cfg walletAddress m2 chainId
    ∧ ∀ (now : String)
        (httpOutcome : Except JsThrown DeployContractResponse)
        (ci : ContractInfo),
        deployERC20Contract cfg walletAddress m1 chainId now httpOutcome
          = .ok ci →
        ci.tokenDescription = m1.description := by
  constructor
  · unfold deployPayload mkConstructorParams
    rw [hname, hsym, hsupply]
  · intro now httpOutcome ci hci
    cases httpOutcome with
    | error e => simp [deployERC20Contract] at hci
    | ok data =>
      cases hd : data.result with
      | none => simp [deployERC20Contract, hd] at hci
      | some r =>
        simp [deployERC20Contract, hd] at hci
        rw [← hci]

/-- Token metadata fixture: description "first", 6 decimals. -/
def metaW1 : TokenMetadata :=
  { name := "Tok", symbol := "TOK", description := "first",
    decimals := some 6, initialSupply := some "100" }

/-- Token metadata fixture: same name/symbol/supply as `metaW1` but
description "second" and 18 decimals. -/
def metaW2 : TokenMetadata :=
  { name := "Tok", symbol := "TOK", description := "second",
    decimals := some 18, initialSupply := some "100" }

/-- Witness for C10 at the two concrete metadata values. -/
theorem deploy_request_ignores_decimals_description_witness :
    deployPayload cfgW "0xW" metaW1 (some 1)
      = deployPayload cfgW "0xW" metaW2 (some 1) :=
  (deploy_request_ignores_decimals_description cfgW "0xW" (some 1)
    metaW1 metaW2 rfl rfl rfl).1
